import Mathlib

/-!
Verification of the healthy-eating-app API proxy (`server.py`) against its
specification.  The Python program is shallowly embedded: JSON values are an
inductive type, `json.loads` is an executable recursive-descent parser
mirroring the strict JSON grammar of CPython, Python dictionary/attribute/indexing
behaviour (including the exceptions raised on wrongly-typed values) is made
explicit, and each HTTP handler is a pure function from the request data and a
simulated upstream response to the HTTP response it writes plus a flag
recording whether the upstream call was made.

Abstractions, noted where they matter:
* The CPython JSON error messages carry line/column positions; the embedded
  parser keeps the message text but drops the positions.
* `str()` of a Python float is abstracted (floating-point formatting); no
  claim exercises it.  JSON numbers are kept exactly as parsed
  (mantissa/decimal-exponent plus a float marker), never as IEEE values.
-/

namespace Server

/-- A JSON number as the CPython json module produces it: `mantissa * 10 ^ exponent`,
with `isFloat` recording whether the literal had a fraction or exponent part
(so that `1` is an `int` but `1.0` and `1e0` are `float`s). -/
structure JsonNumber where
  mantissa : Int
  exponent : Int
  isFloat : Bool
deriving Repr, DecidableEq

/-- JSON values, the result type of the embedded `json.loads`. -/
inductive Json where
  | null
  | boolean (b : Bool)
  | number (n : JsonNumber)
  | string (s : String)
  | array (elems : List Json)
  | object (fields : List (String × Json))
deriving Repr

/-- Errors of the embedded `json.loads` (CPython `json.JSONDecodeError`
reasons; positions abstracted away). -/
inductive ParseErr where
  | expectingValue
  | extraData
  | unterminatedString
  | invalidControlCharacter
  | invalidEscape
  | expectingPropertyName
  | expectingColonDelimiter
  | expectingCommaDelimiter
  | outOfFuel
deriving Repr, DecidableEq

/-- The message text of a decode error (CPython wording, positions dropped). -/
def ParseErr.message : ParseErr → String
  | .expectingValue => "Expecting value"
  | .extraData => "Extra data"
  | .unterminatedString => "Unterminated string starting at"
  | .invalidControlCharacter => "Invalid control character at"
  | .invalidEscape => "Invalid \\escape"
  | .expectingPropertyName => "Expecting property name enclosed in double quotes"
  | .expectingColonDelimiter => "Expecting \x27:\x27 delimiter"
  | .expectingCommaDelimiter => "Expecting \x27,\x27 delimiter"
  | .outOfFuel => "Expecting value"

/-- JSON insignificant whitespace (exactly the four characters CPython skips). -/
def jsonWs (c : Char) : Bool :=
  c = ' ' || c = '\t' || c = '\n' || c = '\r'

/-- Drop leading JSON whitespace. -/
def skipWs : List Char → List Char
  | [] => []
  | c :: rest => if jsonWs c then skipWs rest else c :: rest

/-- Value of a hex digit, if the character is one. -/
def hexVal (c : Char) : Option Nat :=
  if c.isDigit then some (c.toNat - 48)
  else if 'a' ≤ c ∧ c ≤ 'f' then some (c.toNat - 87)
  else if 'A' ≤ c ∧ c ≤ 'F' then some (c.toNat - 55)
  else none

/-- Single-character JSON string escapes, as an association table. -/
def escMap (c : Char) : Option Char :=
  [('"', '"'), ('\\', '\\'), ('/', '/'), ('b', '\x08'), ('f', '\x0c'),
   ('n', '\n'), ('r', '\r'), ('t', '\t')].lookup c

/-- Parse the body of a JSON string (the opening quote already consumed),
accumulating characters in reverse. -/
def parseJStringAux : List Char → List Char → Except ParseErr (String × List Char)
  | [], _ => .error .unterminatedString
  | '"' :: rest, out => .ok (String.mk out.reverse, rest)
  | '\\' :: 'u' :: h1 :: h2 :: h3 :: h4 :: rest, out =>
    match hexVal h1, hexVal h2, hexVal h3, hexVal h4 with
    | some a, some b, some c, some d =>
      parseJStringAux rest (Char.ofNat (((a * 16 + b) * 16 + c) * 16 + d) :: out)
    | _, _, _, _ => .error .invalidEscape
  | '\\' :: e :: rest, out =>
    match escMap e with
    | some c => parseJStringAux rest (c :: out)
    | none => .error .invalidEscape
  | '\\' :: [], _ => .error .unterminatedString
  | c :: rest, out =>
    if c.toNat < 32 then .error .invalidControlCharacter
    else parseJStringAux rest (c :: out)

/-- Split off a maximal run of leading decimal digits. -/
def spanDigits : List Char → (List Char × List Char)
  | [] => ([], [])
  | c :: rest =>
    if c.isDigit then
      let (ds, r) := spanDigits rest
      (c :: ds, r)
    else ([], c :: rest)

/-- Numeric value of a digit run. -/
def digitsToNat (ds : List Char) : Nat :=
  ds.foldl (fun sofar c => 10 * sofar + (c.toNat - 48)) 0

/-- Consume an expected literal keyword tail, or fail. -/
def expectLit : List Char → List Char → Option (List Char)
  | [], rest => some rest
  | k :: ks, c :: rest => if c = k then expectLit ks rest else none
  | _ :: _, [] => none

/-- Parse a JSON number literal per the strict grammar
`-? (0 | [1-9][0-9]*) (. [0-9]+)? ([eE][+-]?[0-9]+)?`; a dangling fraction
or exponent part is left unconsumed, as the CPython number regex leaves it
(turning it into trailing data for the caller). -/
def parseNumber (cs : List Char) : Except ParseErr (JsonNumber × List Char) :=
  let neg : Bool := cs.head? == some '-'
  let cs1 := if neg then cs.tail else cs
  match cs1 with
  | [] => .error .expectingValue
  | c0 :: _ =>
    if c0.isDigit then
      let (intDs, cs2) :=
        match cs1 with
        | '0' :: rest => ([c0], rest)
        | _ => spanDigits cs1
      let (fracDs, cs3) :=
        match cs2 with
        | '.' :: rest =>
          let (ds, r) := spanDigits rest
          if ds.isEmpty then (([] : List Char), cs2) else (ds, r)
        | _ => ([], cs2)
      let (hasExp, expInt, cs4) :=
        match cs3 with
        | e :: rest =>
          if e = 'e' ∨ e = 'E' then
            let (sgn, rest2) :=
              match rest with
              | '+' :: r => ((1 : Int), r)
              | '-' :: r => ((-1 : Int), r)
              | _ => ((1 : Int), rest)
            let (ds, r) := spanDigits rest2
            if ds.isEmpty then (false, (0 : Int), cs3)
            else (true, sgn * (digitsToNat ds : Int), r)
          else (false, (0 : Int), cs3)
        | [] => (false, (0 : Int), cs3)
      let mant : Int :=
        (if neg then (-1 : Int) else 1) * (digitsToNat (intDs ++ fracDs) : Int)
      .ok (⟨mant, expInt - (fracDs.length : Int), ¬ fracDs.isEmpty ∨ hasExp⟩, cs4)
    else .error .expectingValue

/-- Insert a key/value pair into an association list the way assignment into a
Python dict behaves: an existing key keeps its position but takes the new
value; a new key goes to the end. -/
def upsert (fields : List (String × Json)) (k : String) (v : Json) :
    List (String × Json) :=
  match fields with
  | [] => [(k, v)]
  | (k2, v2) :: rest =>
    if k2 = k then (k2, v) :: rest else (k2, v2) :: upsert rest k v

/-- Parser mode: a plain value, the element list of an array, or the member
list of an object (each with its accumulator). -/
inductive PMode where
  | value
  | elems (acc : List Json)
  | members (acc : List (String × Json))

/-- Fuel-indexed recursive-descent JSON parser (the strict CPython grammar).
Returns the parsed value and the unconsumed remainder. -/
def parseF : Nat → PMode → List Char → Except ParseErr (Json × List Char)
  | 0, _, _ => .error .outOfFuel
  | fuel+1, .value, cs =>
    match skipWs cs with
    | [] => .error .expectingValue
    | '{' :: rest =>
      match skipWs rest with
      | '}' :: rest2 => .ok (.object [], rest2)
      | rest2 => parseF fuel (.members []) rest2
    | '[' :: rest =>
      match skipWs rest with
      | ']' :: rest2 => .ok (.array [], rest2)
      | rest2 => parseF fuel (.elems []) rest2
    | '"' :: rest =>
      match parseJStringAux rest [] with
      | .error e => .error e
      | .ok (s, rest2) => .ok (.string s, rest2)
    | 't' :: rest =>
      match expectLit ['r', 'u', 'e'] rest with
      | some rest2 => .ok (.boolean true, rest2)
      | none => .error .expectingValue
    | 'f' :: rest =>
      match expectLit ['a', 'l', 's', 'e'] rest with
      | some rest2 => .ok (.boolean false, rest2)
      | none => .error .expectingValue
    | 'n' :: rest =>
      match expectLit ['u', 'l', 'l'] rest with
      | some rest2 => .ok (.null, rest2)
      | none => .error .expectingValue
    | c :: rest =>
      if c = '-' || c.isDigit then
        match parseNumber (c :: rest) with
        | .error e => .error e
        | .ok (n, rest2) => .ok (.number n, rest2)
      else .error .expectingValue
  | fuel+1, .members acc, cs =>
    match skipWs cs with
    | '"' :: rest =>
      match parseJStringAux rest [] with
      | .error e => .error e
      | .ok (k, rest2) =>
        match skipWs rest2 with
        | ':' :: rest3 =>
          match parseF fuel .value rest3 with
          | .error e => .error e
          | .ok (v, rest4) =>
            match skipWs rest4 with
            | ',' :: rest5 => parseF fuel (.members (upsert acc k v)) rest5
            | '}' :: rest5 => .ok (.object (upsert acc k v), rest5)
            | _ => .error .expectingCommaDelimiter
        | _ => .error .expectingColonDelimiter
    | _ => .error .expectingPropertyName
  | fuel+1, .elems acc, cs =>
    match parseF fuel .value cs with
    | .error e => .error e
    | .ok (v, rest) =>
      match skipWs rest with
      | ',' :: rest2 => parseF fuel (.elems (acc ++ [v])) rest2
      | ']' :: rest2 => .ok (.array (acc ++ [v]), rest2)
      | _ => .error .expectingCommaDelimiter

/-- The embedding of the Python `json.loads`: parse one JSON value and require
only whitespace after it.  The fuel `2 * length + 16` exceeds the number of
recursive steps any input of that length can drive (each nesting or element
step consumes at least one character per two units of fuel). -/
def json_loads (s : String) : Except ParseErr Json :=
  match parseF (2 * s.length + 16) .value s.data with
  | .error e => .error e
  | .ok (j, rest) =>
    match skipWs rest with
    | [] => .ok j
    | _ => .error .extraData

/-- Python type name of a decoded JSON value, as it appears in error messages. -/
def pyTypeName : Json → String
  | .null => "NoneType"
  | .boolean _ => "bool"
  | .number n => if n.isFloat then "float" else "int"
  | .string _ => "str"
  | .array _ => "list"
  | .object _ => "dict"

/-- Message of the `AttributeError` raised by `x.a` when `x` has no attribute `a`. -/
def attrErrMsg (j : Json) (a : String) : String :=
  "\x27" ++ pyTypeName j ++ "\x27 object has no attribute \x27" ++ a ++ "\x27"

/-- Rendering of a number by the Python `str()`: exact for ints; float formatting
is abstracted to mantissa/exponent form (floating point is out of scope and no
claim exercises it). -/
def JsonNumber.renderPy (n : JsonNumber) : String :=
  if n.isFloat then toString n.mantissa ++ "e" ++ toString n.exponent
  else toString n.mantissa

mutual

/-- Python `repr()` of a decoded JSON value (string-content escaping abstracted:
the values reaching it in this development contain no quotes or backslashes). -/
def pyRepr : Json → String
  | .null => "None"
  | .boolean true => "True"
  | .boolean false => "False"
  | .number n => n.renderPy
  | .string s => "\x27" ++ s ++ "\x27"
  | .array xs => "[" ++ ", ".intercalate (pyReprList xs) ++ "]"
  | .object fs => "\x7b" ++ ", ".intercalate (pyReprFields fs) ++ "\x7d"

/-- Helper of `pyRepr` for array elements. -/
def pyReprList : List Json → List String
  | [] => []
  | x :: xs => pyRepr x :: pyReprList xs

/-- Helper of `pyRepr` for object members. -/
def pyReprFields : List (String × Json) → List String
  | [] => []
  | (k, v) :: fs => ("\x27" ++ k ++ "\x27: " ++ pyRepr v) :: pyReprFields fs

end

/-- Python `str()` of a decoded JSON value (what `str(Exception(x))` and
f-string interpolation produce). -/
def pyStr : Json → String
  | .string s => s
  | j => pyRepr j

/-- Python truthiness of a decoded JSON value (`bool(x)`). -/
def pyTruthy : Json → Bool
  | .null => false
  | .boolean b => b
  | .number n => n.mantissa ≠ 0
  | .string s => s ≠ ""
  | .array xs => ¬ xs.isEmpty
  | .object fs => ¬ fs.isEmpty

/-- Characters stripped by the Python `str.strip()` (ASCII whitespace; the
Unicode spaces Python also strips are out of scope for this development). -/
def pyWhitespaceChar (c : Char) : Bool :=
  c = ' ' || c = '\t' || c = '\n' || c = '\r' || c = '\x0b' || c = '\x0c'

/-- The embedding of the Python `str.strip()` with no arguments. -/
def pyStrip (s : String) : String :=
  String.mk (((s.data.dropWhile pyWhitespaceChar).reverse.dropWhile pyWhitespaceChar).reverse)

/-- Python exceptions that the embedded server code can raise.  `raisedException`
is the explicit `raise Exception(msg)` in `_send_to_anthropic`. -/
inductive PyErr where
  | jsonDecodeError (e : ParseErr)
  | attributeError (msg : String)
  | indexError (msg : String)
  | keyError (msg : String)
  | typeError (msg : String)
  | raisedException (msg : String)
deriving Repr, DecidableEq

/-- What `str(e)` yields for each modelled exception: exactly the string the
handler places in the `error` field of a 500 response. -/
def PyErr.message : PyErr → String
  | .jsonDecodeError e => e.message
  | .attributeError m => m
  | .indexError m => m
  | .keyError m => m
  | .typeError m => m
  | .raisedException m => m

/-- Python `x.get(key, dflt)`: defined on dicts, an `AttributeError` on every
other value. -/
def pyDictGet (j : Json) (key : String) (dflt : Json) : Except PyErr Json :=
  match j with
  | .object fields => .ok ((fields.lookup key).getD dflt)
  | other => .error (.attributeError (attrErrMsg other "get"))

/-- Python `x[0]` for a decoded JSON value. -/
def pySubscriptZero (j : Json) : Except PyErr Json :=
  match j with
  | .array [] => .error (.indexError "list index out of range")
  | .array (x :: _) => .ok x
  | .string s =>
    match s.data with
    | [] => .error (.indexError "string index out of range")
    | c :: _ => .ok (.string (String.mk [c]))
  | .object _ => .error (.keyError "0")
  | other => .error (.typeError ("\x27" ++ pyTypeName other ++ "\x27 object is not subscriptable"))

/-- The fixed model identifier (`MODEL` in `server.py`). -/
def MODEL : String := "claude-sonnet-4-20250514"

/-- The request-body ceiling for the image route (`MAX_BODY_SIZE`, 10MB). -/
def MAX_BODY_SIZE : Nat := 10000000

/-- The media-type allow-list (`VALID_IMAGE_TYPES`). -/
def VALID_IMAGE_TYPES : List String :=
  ["image/jpeg", "image/png", "image/gif", "image/webp"]

/-- The fixed text-analysis system prompt (`SYSTEM_PROMPT` in `server.py`);
braces and apostrophes appear escaped. -/
def SYSTEM_PROMPT : String := "You are a friendly, supportive nutrition advisor embedded in a healthy eating app. The user will tell you a food they\x27re thinking of eating. Analyse it and respond with ONLY valid JSON (no markdown, no code fences) in this exact format:\n\n\x7b\n  \"food\": \"<the food name, cleaned up>\",\n  \"rating\": <number 1-10>,\n  \"portion\": \"<recommended portion in everyday visual terms, e.g. \x27about the size of your fist\x27, \x27a deck of cards worth\x27>\",\n  \"calories\": \"<calorie estimate for that portion, e.g. \x27~350 calories\x27>\",\n  \"explanation\": \"<2-3 sentences explaining the rating in a casual, supportive tone. Never shame. Be encouraging.>\",\n  \"alternative\": \"<if rating < 6, suggest a healthier swap in 1 sentence. If rating >= 6, set to null>\"\n\x7d\n\nGuidelines:\n- Be encouraging and positive, never judgmental\n- Use everyday language, not clinical terms\n- Portion sizes should use visual comparisons (fist, palm, deck of cards, tennis ball, etc.)\n- Calorie estimates should be approximate and use the ~ symbol\n- For healthy foods (7+), celebrate the choice\n- For moderate foods (4-6), acknowledge it\x27s okay and gently suggest improvements\n- For less healthy foods (1-3), be kind — suggest it as an occasional treat and offer a swap\n- The alternative field should be null (not a string \"null\") when rating >= 6"

/-- The fixed image-analysis system prompt (`IMAGE_SYSTEM_PROMPT` in `server.py`);
braces and apostrophes appear escaped. -/
def IMAGE_SYSTEM_PROMPT : String := "You are a friendly, supportive nutrition advisor embedded in a healthy eating app. The user has sent a PHOTO of food. Your job is to:\n\n1. Identify the food in the image\n2. Estimate the ACTUAL portion size visible in the photo (use visual cues like plate size, utensils, hands, or common dish sizes to judge)\n3. Calculate calories and macros based on THAT specific portion — not a generic serving\n\nRespond with ONLY valid JSON (no markdown, no code fences) in this exact format:\n\n\x7b\n  \"food\": \"<the food name, cleaned up>\",\n  \"rating\": <number 1-10>,\n  \"portion\": \"<your estimate of the actual portion shown, e.g. \x27about 1.5 cups / a large bowlful\x27, \x27roughly 200g / palm-sized piece\x27>\",\n  \"calories\": \"<calorie estimate for the portion SHOWN in the photo, e.g. \x27~450 calories\x27>\",\n  \"protein\": \"<estimated protein in grams, e.g. \x27~25g\x27>\",\n  \"carbs\": \"<estimated carbs in grams, e.g. \x27~40g\x27>\",\n  \"fat\": \"<estimated fat in grams, e.g. \x27~18g\x27>\",\n  \"explanation\": \"<2-3 sentences explaining the rating AND how you estimated the portion from the photo. Be casual and supportive. Never shame.>\",\n  \"alternative\": \"<if rating < 6, suggest a healthier swap in 1 sentence. If rating >= 6, set to null>\"\n\x7d\n\nGuidelines:\n- Be encouraging and positive, never judgmental\n- Use everyday language, not clinical terms\n- CAREFULLY estimate the portion visible in the photo — look at plate/bowl size, compare to utensils, hands, or standard dish dimensions\n- Give a specific calorie number based on what you SEE, not a generic serving\n- Include protein, carbs, and fat estimates for the visible portion\n- For healthy foods (7+), celebrate the choice\n- For moderate foods (4-6), acknowledge it\x27s okay and gently suggest improvements\n- For less healthy foods (1-3), be kind — suggest it as an occasional treat and offer a swap\n- The alternative field should be null (not a string \"null\") when rating >= 6"

/-- The fixed text instruction of the second content part of the image payload. -/
def IMAGE_USER_TEXT : String := "What food is in this photo? Estimate the actual portion size you can see and calculate the calories and macros for that specific amount."

/-- A JSON integer literal. -/
def Json.int (n : Int) : Json := .number ⟨n, 0, false⟩

/-- Field lookup on a JSON object (`none` on non-objects and missing keys);
used only to state theorems about payload shapes. -/
def Json.getField : Json → String → Option Json
  | .object fields, k => fields.lookup k
  | _, _ => none

/-- The simulated answer of the upstream endpoint to one request: either an HTTP 2xx
with a raw response body, or an `urllib.error.HTTPError` with a status code and
a raw error body. -/
inductive UpstreamResponse where
  | success (body : String)
  | httpError (code : Nat) (body : String)

/-- The upstream request object built by `call_anthropic` for a food string. -/
def call_anthropic_payload (food : String) : Json :=
  .object [("model", .string MODEL),
        ("max_tokens", Json.int 500),
        ("system", .string SYSTEM_PROMPT),
        ("messages", .array [.object [("role", .string "user"),
                                 ("content", .string ("Analyse this food: " ++ food))]])]

/-- The upstream request object built by `call_anthropic_image`.  The arguments
are the values taken from the request dict (strings on every reachable path,
but kept as JSON values as Python does). -/
def call_anthropic_image_payload (image_base64 media_type : Json) : Json :=
  .object [("model", .string MODEL),
        ("max_tokens", Json.int 1000),
        ("system", .string IMAGE_SYSTEM_PROMPT),
        ("messages", .array [.object [("role", .string "user"),
          ("content", .array [
            .object [("type", .string "image"),
                  ("source", .object [("type", .string "base64"),
                                   ("media_type", media_type),
                                   ("data", image_base64)])],
            .object [("type", .string "text"),
                  ("text", .string IMAGE_USER_TEXT)]])]])]

/-- The embedding of `_send_to_anthropic`: the payload is sent (kept as an
argument to mirror the data flow), the simulated upstream answer is consumed.
On 2xx the body is parsed, `data.get("content", [\x7b\x7d])[0].get("text", "")`
is extracted and parsed as JSON; on `HTTPError` the error body is parsed to
extract `error.message` (default `"API error: <code>"`), only
`json.JSONDecodeError` being caught there, and `Exception(msg)` is raised. -/
def send_to_anthropic (_payload : Json) (upstream : UpstreamResponse) :
    Except PyErr Json :=
  match upstream with
  | .success respBody =>
    match json_loads respBody with
    | .error e => .error (.jsonDecodeError e)
    | .ok data =>
      match pyDictGet data "content" (.array [.object []]) with
      | .error e => .error e
      | .ok content =>
        match pySubscriptZero content with
        | .error e => .error e
        | .ok first =>
          match pyDictGet first "text" (.string "") with
          | .error e => .error e
          | .ok textJ =>
            match textJ with
            | .string s =>
              match json_loads s with
              | .error e => .error (.jsonDecodeError e)
              | .ok j => .ok j
            | other =>
              .error (.typeError
                ("the JSON object must be str, bytes or bytearray, not " ++
                  pyTypeName other))
  | .httpError code respBody =>
    match json_loads respBody with
    | .error _ => .error (.raisedException ("API error: " ++ toString code))
    | .ok err =>
      match pyDictGet err "error" (.object []) with
      | .error e => .error e
      | .ok errVal =>
        match pyDictGet errVal "message" (.string ("API error: " ++ toString code)) with
        | .error e => .error e
        | .ok m => .error (.raisedException (pyStr m))

/-- The embedding of `call_anthropic`. -/
def call_anthropic (food : String) (upstream : UpstreamResponse) :
    Except PyErr Json :=
  send_to_anthropic (call_anthropic_payload food) upstream

/-- The embedding of `call_anthropic_image`. -/
def call_anthropic_image (image_base64 media_type : Json)
    (upstream : UpstreamResponse) : Except PyErr Json :=
  send_to_anthropic (call_anthropic_image_payload image_base64 media_type) upstream

/-- Body of an HTTP response written by the server. -/
inductive ResponseBody where
  | jsonBody (j : Json)
  | textBody (s : String)
  | emptyBody
deriving Repr

/-- An HTTP response: status, headers in the order sent, body. -/
structure Response where
  status : Nat
  headers : List (String × String)
  body : ResponseBody
deriving Repr

/-- The three headers added by `send_cors_headers`. -/
def send_cors_headers : List (String × String) :=
  [("Access-Control-Allow-Origin", "*"),
   ("Access-Control-Allow-Methods", "POST, GET, OPTIONS"),
   ("Access-Control-Allow-Headers", "Content-Type")]

/-- The embedding of `_send_json`: status, `Content-Type: application/json`
plus the CORS headers, JSON body. -/
def send_json (status : Nat) (data : Json) : Response :=
  { status := status,
    headers := ("Content-Type", "application/json") :: send_cors_headers,
    body := .jsonBody data }

/-- The error-body shape `\x7b"error": msg\x7d`. -/
def errObj (m : String) : Json := .object [("error", .string m)]

/-- The embedding of `_handle_analyze_text`.  `body` is the request body as
read from the stream; the `Bool` of the result records whether the upstream
call was made.  The success branch models the `result.get("rating", "?")`
access performed before the 200 is written (an `AttributeError` on non-dict
results, caught by the same `except`). -/
def handle_analyze_text (body : String) (upstream : UpstreamResponse) :
    Response × Bool :=
  match json_loads body with
  | .error e => (send_json 500 (errObj (PyErr.message (.jsonDecodeError e))), false)
  | .ok data =>
    match pyDictGet data "food" (.string "") with
    | .error e => (send_json 500 (errObj e.message), false)
    | .ok foodJ =>
      match foodJ with
      | .string rawFood =>
        if pyStrip rawFood = "" then
          (send_json 400 (errObj "Please provide a food to analyse."), false)
        else
          match call_anthropic (pyStrip rawFood) upstream with
          | .error e => (send_json 500 (errObj e.message), true)
          | .ok result =>
            match result with
            | .object fs => (send_json 200 (.object fs), true)
            | other => (send_json 500 (errObj (attrErrMsg other "get")), true)
      | other => (send_json 500 (errObj (attrErrMsg other "strip")), false)

/-- Python `media_type in VALID_IMAGE_TYPES` (a set of strings): string
membership, `False` for other hashable values, `TypeError` for unhashable ones. -/
def inValidImageTypes (j : Json) : Except PyErr Bool :=
  match j with
  | .string s => .ok (VALID_IMAGE_TYPES.contains s)
  | .array _ => .error (.typeError "unhashable type: \x27list\x27")
  | .object _ => .error (.typeError "unhashable type: \x27dict\x27")
  | _ => .ok false

/-- The embedding of `_handle_analyze_image`.  `content_length` is the declared
`Content-Length`; the size check precedes any use of `body`.  The success
branch models the `result.get("food", "?")` access performed before the 200 is
written. -/
def handle_analyze_image (content_length : Nat) (body : String)
    (upstream : UpstreamResponse) : Response × Bool :=
  if content_length > MAX_BODY_SIZE then
    (send_json 413 (errObj "Image is too large. Please try a smaller photo."), false)
  else
    match json_loads body with
    | .error e => (send_json 500 (errObj (PyErr.message (.jsonDecodeError e))), false)
    | .ok data =>
      match pyDictGet data "image" (.string "") with
      | .error e => (send_json 500 (errObj e.message), false)
      | .ok image =>
        match pyDictGet data "media_type" (.string "") with
        | .error e => (send_json 500 (errObj e.message), false)
        | .ok media_type =>
          if ¬ pyTruthy image ∨ ¬ pyTruthy media_type then
            (send_json 400 (errObj "Please provide an image to analyse."), false)
          else
            match inValidImageTypes media_type with
            | .error e => (send_json 500 (errObj e.message), false)
            | .ok mem =>
              if ¬ mem then
                (send_json 400 (errObj ("Unsupported image type: " ++ pyStr media_type)), false)
              else
                match call_anthropic_image image media_type upstream with
                | .error e => (send_json 500 (errObj e.message), true)
                | .ok result =>
                  match result with
                  | .object fs => (send_json 200 (.object fs), true)
                  | other => (send_json 500 (errObj (attrErrMsg other "get")), true)

/-- Request methods handled by the server. -/
inductive Method where
  | OPTIONS
  | GET
  | POST
deriving Repr, DecidableEq

/-- An inbound request: method, path, declared `Content-Length` (0 when the
header is absent) and the body bytes the handler reads. -/
structure Request where
  method : Method
  path : String
  contentLength : Nat
  body : String

/-- The embedding of the `RequestHandler` dispatch: `do_OPTIONS`, `do_GET`
(`indexHtml` is the content of the static file when it exists) and `do_POST` with
its two API routes and plain-text 404 fallback. -/
def dispatch (req : Request) (indexHtml : Option String)
    (upstream : UpstreamResponse) : Response × Bool :=
  match req.method with
  | .OPTIONS => ({ status := 204, headers := send_cors_headers, body := .emptyBody }, false)
  | .GET =>
    match indexHtml with
    | some html =>
      ({ status := 200,
         headers := ("Content-Type", "text/html; charset=utf-8") :: send_cors_headers,
         body := .textBody html }, false)
    | none => ({ status := 404, headers := [], body := .textBody "Not found" }, false)
  | .POST =>
    if req.path = "/api/analyze" then
      handle_analyze_text req.body upstream
    else if req.path = "/api/analyze-image" then
      handle_analyze_image req.contentLength req.body upstream
    else
      ({ status := 404, headers := [], body := .textBody "Not found" }, false)

/-- Check that a response carries all three CORS headers. -/
def corsOk (r : Response) : Bool :=
  send_cors_headers.all (fun p => r.headers.contains p)

/-- Check that a response body is a JSON object with exactly one field,
a non-empty `error` string. -/
def isSingleErrorObj : ResponseBody → Bool
  | .jsonBody (.object [("error", .string m)]) => !(m == "")
  | _ => false

/-! ## Claim theorems -/

/-- Every branch of the text handler answers through `_send_json`, so its
headers are always `Content-Type: application/json` followed by the three
CORS headers. -/
theorem handle_analyze_text_headers (body : String) (upstream : UpstreamResponse) :
    (handle_analyze_text body upstream).1.headers =
      ("Content-Type", "application/json") :: send_cors_headers := by
  unfold handle_analyze_text
  repeat' split
  all_goals rfl

/-- Every branch of the image handler answers through `_send_json`. -/
theorem handle_analyze_image_headers (cl : Nat) (body : String)
    (upstream : UpstreamResponse) :
    (handle_analyze_image cl body upstream).1.headers =
      ("Content-Type", "application/json") :: send_cors_headers := by
  unfold handle_analyze_image
  repeat' split
  all_goals rfl

/-- Claim C3: a valid-JSON object body whose `food` value is a string that is
empty after trimming (including the absent-key case, whose default is `""`)
makes the text route answer 400 with the fixed message and no upstream call. -/
theorem c3_blank_food_rejected (body : String) (fields : List (String × Json))
    (rawFood : String)
    (hparse : json_loads body = .ok (.object fields))
    (hfood : (fields.lookup "food").getD (.string "") = .string rawFood)
    (hblank : pyStrip rawFood = "")
    (upstream : UpstreamResponse) :
    handle_analyze_text body upstream =
      (send_json 400 (errObj "Please provide a food to analyse."), false) := by
  unfold handle_analyze_text
  rw [hparse]
  simp [pyDictGet, hfood, hblank]

/-- Witness for C3: a request whose `food` is all whitespace, and one where it
is absent, both get the 400 with no upstream call. -/
theorem c3_blank_food_rejected_witness :
    handle_analyze_text "\x7b\"food\":\"   \"\x7d" (.success "") =
      (send_json 400 (errObj "Please provide a food to analyse."), false) ∧
    handle_analyze_text "\x7b\x7d" (.httpError 500 "x") =
      (send_json 400 (errObj "Please provide a food to analyse."), false) :=
  ⟨c3_blank_food_rejected "\x7b\"food\":\"   \"\x7d" [("food", .string "   ")] "   " rfl rfl rfl
     (.success ""),
   c3_blank_food_rejected "\x7b\x7d" [] "" rfl rfl rfl (.httpError 500 "x")⟩

/-- Claim C4: a declared `Content-Length` above 10,000,000 makes the image
route answer 413 regardless of the request body and of the upstream (so the
body is never read and no upstream call is made), while exactly 10,000,000 is
not rejected by this check (no branch of the handler then produces 413). -/
theorem c4_content_length_ceiling :
    (∀ cl : Nat, cl > MAX_BODY_SIZE → ∀ (body : String) (upstream : UpstreamResponse),
      handle_analyze_image cl body upstream =
        (send_json 413 (errObj "Image is too large. Please try a smaller photo."), false)) ∧
    (∀ (body : String) (upstream : UpstreamResponse),
      (handle_analyze_image MAX_BODY_SIZE body upstream).1.status ≠ 413) := by
  constructor
  · intro cl hcl body upstream
    unfold handle_analyze_image
    rw [if_pos hcl]
  · intro body upstream
    unfold handle_analyze_image
    rw [if_neg (lt_irrefl MAX_BODY_SIZE)]
    repeat' split
    all_goals simp [send_json]

/-- Witness for C4: `Content-Length` 10,000,001 is rejected with 413 whatever
the body; 10,000,000 is not. -/
theorem c4_content_length_ceiling_witness :
    handle_analyze_image 10000001 "ignored body" (.success "") =
      (send_json 413 (errObj "Image is too large. Please try a smaller photo."), false) ∧
    (handle_analyze_image 10000000 "" (.success "")).1.status ≠ 413 :=
  ⟨c4_content_length_ceiling.1 10000001 (by decide) "ignored body" (.success ""),
   c4_content_length_ceiling.2 "" (.success "")⟩

/-- Claim C6: for every food string the text payload has the fixed model
identifier, `max_tokens = 500`, the fixed text-analysis system prompt, and a
single user message whose content is literally `"Analyse this food: " ++ food`. -/
theorem c6_text_payload_shape (food : String) :
    (call_anthropic_payload food).getField "model" = some (.string MODEL) ∧
    (call_anthropic_payload food).getField "max_tokens" = some (Json.int 500) ∧
    (call_anthropic_payload food).getField "system" = some (.string SYSTEM_PROMPT) ∧
    (call_anthropic_payload food).getField "messages" =
      some (.array [.object [("role", .string "user"),
                        ("content", .string ("Analyse this food: " ++ food))]]) :=
  ⟨rfl, rfl, rfl, rfl⟩

/-- Claim C7: for every image base64 string and media type the image payload
has the fixed model identifier, `max_tokens = 1000`, the fixed image-analysis
system prompt, and a single user message whose content is the two-element list
image part first, fixed text part second. -/
theorem c7_image_payload_shape (img mt : String) :
    (call_anthropic_image_payload (.string img) (.string mt)).getField "model" =
      some (.string MODEL) ∧
    (call_anthropic_image_payload (.string img) (.string mt)).getField "max_tokens" =
      some (Json.int 1000) ∧
    (call_anthropic_image_payload (.string img) (.string mt)).getField "system" =
      some (.string IMAGE_SYSTEM_PROMPT) ∧
    (call_anthropic_image_payload (.string img) (.string mt)).getField "messages" =
      some (.array [.object [("role", .string "user"),
        ("content", .array [
          .object [("type", .string "image"),
                ("source", .object [("type", .string "base64"),
                                 ("media_type", .string mt),
                                 ("data", .string img)])],
          .object [("type", .string "text"),
                ("text", .string IMAGE_USER_TEXT)]])]]) :=
  ⟨rfl, rfl, rfl, rfl⟩

/-- Claim C5: on a valid-JSON object body (within the size ceiling) the image
route checks emptiness before the allow-list: a falsy `image` or `media_type`
gives 400 with the fixed message even when the media type is also unsupported;
with both present, a media type outside the allow-list gives 400 with the
rejected type verbatim; neither case calls upstream. -/
theorem c5_image_validation_order (cl : Nat) (hcl : cl ≤ MAX_BODY_SIZE)
    (body : String) (fields : List (String × Json)) (upstream : UpstreamResponse)
    (hparse : json_loads body = .ok (.object fields)) :
    (¬ pyTruthy ((fields.lookup "image").getD (.string "")) ∨
     ¬ pyTruthy ((fields.lookup "media_type").getD (.string "")) →
      handle_analyze_image cl body upstream =
        (send_json 400 (errObj "Please provide an image to analyse."), false)) ∧
    (∀ s : String,
      pyTruthy ((fields.lookup "image").getD (.string "")) →
      (fields.lookup "media_type").getD (.string "") = .string s → s ≠ "" →
      s ∉ VALID_IMAGE_TYPES →
      handle_analyze_image cl body upstream =
        (send_json 400 (errObj ("Unsupported image type: " ++ s)), false)) := by
  constructor
  · intro h
    unfold handle_analyze_image
    rw [if_neg (Nat.not_lt.mpr hcl), hparse]
    simp only [pyDictGet]
    rw [if_pos h]
  · intro s himg hmt hne hnotin
    unfold handle_analyze_image
    rw [if_neg (Nat.not_lt.mpr hcl), hparse]
    simp only [pyDictGet]
    rw [hmt]
    have hcond : ¬ (¬ pyTruthy ((fields.lookup "image").getD (.string "")) ∨
        ¬ pyTruthy (Json.string s)) := by
      push_neg
      exact ⟨himg, by simp [pyTruthy, hne]⟩
    rw [if_neg hcond]
    simp only [inValidImageTypes]
    have hmem : VALID_IMAGE_TYPES.contains s = false := by
      simpa using hnotin
    rw [hmem]
    simp [pyStr]

/-- Witness for C5: an empty image with an allow-listed type gets the
"provide an image" 400; a present image with type `image/bmp` gets the
"unsupported" 400 naming `image/bmp`. -/
theorem c5_image_validation_order_witness :
    handle_analyze_image 10 "\x7b\"image\":\"\",\"media_type\":\"image/png\"\x7d"
        (.success "") =
      (send_json 400 (errObj "Please provide an image to analyse."), false) ∧
    handle_analyze_image 10 "\x7b\"image\":\"AA\",\"media_type\":\"image/bmp\"\x7d"
        (.success "") =
      (send_json 400 (errObj "Unsupported image type: image/bmp"), false) :=
  ⟨(c5_image_validation_order 10 (by decide)
      "\x7b\"image\":\"\",\"media_type\":\"image/png\"\x7d"
      [("image", .string ""), ("media_type", .string "image/png")] (.success "") rfl).1
      (Or.inl (by decide)),
   (c5_image_validation_order 10 (by decide)
      "\x7b\"image\":\"AA\",\"media_type\":\"image/bmp\"\x7d"
      [("image", .string "AA"), ("media_type", .string "image/bmp")] (.success "") rfl).2
      "image/bmp" (by decide) rfl (by decide) (by decide)⟩

/-- Claim C1: when the upstream 2xx body is a JSON object whose first content
block has a `text` string parsing to a JSON object, a valid text request gets
HTTP 200 whose body is exactly that object, unmodified (and the upstream call
was made). -/
theorem c1_success_passthrough
    (reqBody : String) (reqFields : List (String × Json)) (rawFood : String)
    (hreq : json_loads reqBody = .ok (.object reqFields))
    (hfood : (reqFields.lookup "food").getD (.string "") = .string rawFood)
    (hnonempty : pyStrip rawFood ≠ "")
    (upBody : String) (envFields blockFields : List (String × Json))
    (restBlocks : List Json) (s : String) (resultFields : List (String × Json))
    (henv : json_loads upBody = .ok (.object envFields))
    (hcontent : envFields.lookup "content" = some (.array (.object blockFields :: restBlocks)))
    (htext : (blockFields.lookup "text").getD (.string "") = .string s)
    (hresult : json_loads s = .ok (.object resultFields)) :
    handle_analyze_text reqBody (.success upBody) =
      (send_json 200 (.object resultFields), true) := by
  unfold handle_analyze_text call_anthropic send_to_anthropic
  rw [hreq]
  simp only [pyDictGet, hfood, if_neg hnonempty, henv, hcontent, Option.getD_some,
    pySubscriptZero, htext, hresult]

/-- Witness for C1: a simulated upstream success embedding
`(\x7b"food": "apple", "rating": 9\x7d)` is relayed verbatim with status 200. -/
theorem c1_success_passthrough_witness :
    handle_analyze_text "\x7b\"food\":\"apple\"\x7d"
        (.success "\x7b\"content\":[\x7b\"text\":\"\x7b\\\"food\\\":\\\"apple\\\",\\\"rating\\\":9\x7d\"\x7d]\x7d") =
      (send_json 200 (.object [("food", .string "apple"),
                            ("rating", .number ⟨9, 0, false⟩)]), true) :=
  c1_success_passthrough "\x7b\"food\":\"apple\"\x7d" [("food", .string "apple")] "apple"
    rfl rfl (by decide)
    "\x7b\"content\":[\x7b\"text\":\"\x7b\\\"food\\\":\\\"apple\\\",\\\"rating\\\":9\x7d\"\x7d]\x7d"
    [("content", .array [.object [("text", .string "\x7b\"food\":\"apple\",\"rating\":9\x7d")]])]
    [("text", .string "\x7b\"food\":\"apple\",\"rating\":9\x7d")]
    [] "\x7b\"food\":\"apple\",\"rating\":9\x7d"
    [("food", .string "apple"), ("rating", .number ⟨9, 0, false⟩)]
    rfl rfl rfl rfl

/-- A validated text request reduces the handler to the upstream-call match:
everything after validation is determined by the outcome of `call_anthropic`. -/
theorem handle_analyze_text_call (reqBody : String)
    (reqFields : List (String × Json)) (rawFood : String)
    (hreq : json_loads reqBody = .ok (.object reqFields))
    (hfood : (reqFields.lookup "food").getD (.string "") = .string rawFood)
    (hnonempty : pyStrip rawFood ≠ "") (upstream : UpstreamResponse) :
    handle_analyze_text reqBody upstream =
      (match call_anthropic (pyStrip rawFood) upstream with
       | .error e => (send_json 500 (errObj e.message), true)
       | .ok result =>
         match result with
         | .object fs => (send_json 200 (.object fs), true)
         | other => (send_json 500 (errObj (attrErrMsg other "get")), true)) := by
  unfold handle_analyze_text
  rw [hreq]
  simp only [pyDictGet, hfood, Option.getD_some, if_neg hnonempty]

/-- Claim C10: a body that is not valid JSON makes either route answer 500
(not 400) with the message of the decode exception and no upstream call; a `food`
value that is not a string makes the text route answer 500 with the
`AttributeError` message of the failed `.strip()`, again with no upstream call. -/
theorem c10_parse_and_type_failures_500 :
    (∀ (body : String) (e : ParseErr) (upstream : UpstreamResponse),
      json_loads body = .error e →
      handle_analyze_text body upstream =
        (send_json 500 (errObj (ParseErr.message e)), false)) ∧
    (∀ cl : Nat, cl ≤ MAX_BODY_SIZE →
      ∀ (body : String) (e : ParseErr) (upstream : UpstreamResponse),
      json_loads body = .error e →
      handle_analyze_image cl body upstream =
        (send_json 500 (errObj (ParseErr.message e)), false)) ∧
    (∀ (body : String) (fields : List (String × Json)) (v : Json)
        (upstream : UpstreamResponse),
      json_loads body = .ok (.object fields) →
      fields.lookup "food" = some v → (∀ t : String, v ≠ .string t) →
      handle_analyze_text body upstream =
        (send_json 500 (errObj (attrErrMsg v "strip")), false)) := by
  refine ⟨?_, ?_, ?_⟩
  · intro body e upstream h
    unfold handle_analyze_text
    rw [h]
    rfl
  · intro cl hcl body e upstream h
    unfold handle_analyze_image
    rw [if_neg (Nat.not_lt.mpr hcl), h]
    rfl
  · intro body fields v upstream hparse hlook hnotstr
    unfold handle_analyze_text
    rw [hparse]
    simp only [pyDictGet, hlook, Option.getD_some]

/-- Witness for C10: a malformed body on each route, and a numeric `food`. -/
theorem c10_parse_and_type_failures_500_witness :
    handle_analyze_text "not json" (.success "") =
      (send_json 500 (errObj "Expecting value"), false) ∧
    handle_analyze_image 4 "\x7boops" (.success "") =
      (send_json 500 (errObj "Expecting property name enclosed in double quotes"), false) ∧
    handle_analyze_text "\x7b\"food\":5\x7d" (.success "") =
      (send_json 500 (errObj "\x27int\x27 object has no attribute \x27strip\x27"), false) :=
  ⟨c10_parse_and_type_failures_500.1 "not json" .expectingValue (.success "") rfl,
   c10_parse_and_type_failures_500.2.1 4 (by decide) "\x7boops" .expectingPropertyName
     (.success "") rfl,
   c10_parse_and_type_failures_500.2.2 "\x7b\"food\":5\x7d"
     [("food", .number ⟨5, 0, false⟩)] (.number ⟨5, 0, false⟩) (.success "") rfl rfl
     (fun t h => Json.noConfusion h)⟩

/-- Claim C2 fails on the code: the plain-text 404 for an unmatched POST path
is written with no headers at all, so it carries none of the CORS headers. -/
theorem c2_counterexample :
    (dispatch ⟨.POST, "/definitely-not-an-api-route", 0, ""⟩ none (.success "")).1.headers
      = [] ∧
    ("Access-Control-Allow-Origin", "*") ∉
      (dispatch ⟨.POST, "/definitely-not-an-api-route", 0, ""⟩ none (.success "")).1.headers :=
  ⟨rfl, fun h => absurd h (List.not_mem_nil _)⟩

/-- Every response of the text route goes through `_send_json`, so it carries
the CORS headers. -/
theorem corsOk_handle_text (body : String) (upstream : UpstreamResponse) :
    corsOk (handle_analyze_text body upstream).1 = true := by
  unfold corsOk
  rw [handle_analyze_text_headers body upstream]
  rfl

/-- Every response of the image route goes through `_send_json`, so it carries
the CORS headers. -/
theorem corsOk_handle_image (cl : Nat) (body : String) (upstream : UpstreamResponse) :
    corsOk (handle_analyze_image cl body upstream).1 = true := by
  unfold corsOk
  rw [handle_analyze_image_headers cl body upstream]
  rfl

/-- Claim C2 (amended): every response carries the three CORS headers except
the plain-text 404s — the unmatched POST path and the GET whose static file is
missing — which are sent with no headers at all. -/
theorem c2_amended_cors_headers (req : Request) (indexHtml : Option String)
    (upstream : UpstreamResponse) :
    corsOk (dispatch req indexHtml upstream).1 = true ∨
    ((dispatch req indexHtml upstream).1.status = 404 ∧
     (dispatch req indexHtml upstream).1.headers = []) := by
  rcases req with ⟨m, path, cl, body⟩
  cases m with
  | OPTIONS => exact Or.inl rfl
  | GET =>
    cases indexHtml with
    | some html => exact Or.inl rfl
    | none => exact Or.inr ⟨rfl, rfl⟩
  | POST =>
    by_cases h1 : path = "/api/analyze"
    · left
      simp only [dispatch, if_pos h1]
      exact corsOk_handle_text body upstream
    · by_cases h2 : path = "/api/analyze-image"
      · left
        simp only [dispatch, if_neg h1, if_pos h2]
        exact corsOk_handle_image cl body upstream
      · right
        constructor <;> simp only [dispatch, if_neg h1, if_neg h2]

/-- Claim C8 fails on the code: an upstream error body that is valid JSON but
whose `error` value is not an object (`\x7b"error": "oops"\x7d` at status 429)
raises `AttributeError` inside the `except json.JSONDecodeError` handler, so
the client sees the text of that exception instead of `"API error: 429"`. -/
theorem c8_counterexample :
    (handle_analyze_text "\x7b\"food\":\"x\"\x7d" (.httpError 429 "\x7b\"error\":\"oops\"\x7d")).1 =
      send_json 500 (errObj "\x27str\x27 object has no attribute \x27get\x27") ∧
    "\x27str\x27 object has no attribute \x27get\x27" ≠ "API error: 429" :=
  ⟨rfl, by decide⟩

/-- Claim C8 (amended): on an upstream non-success status the route answers
500; the `error` field is `str()` of `error.message` when the body is a JSON
object whose `error` field is an object containing `message`; it is
`"API error: <code>"` when the body is not valid JSON, or lacks `error`, or
`error` is an object lacking `message`; and when the top level of the body is not
an object, or its `error` value is not an object, the field is the resulting
`AttributeError` message instead. -/
theorem c8_amended_upstream_error_mapping (reqBody : String)
    (reqFields : List (String × Json)) (rawFood : String)
    (hreq : json_loads reqBody = .ok (.object reqFields))
    (hfood : (reqFields.lookup "food").getD (.string "") = .string rawFood)
    (hnonempty : pyStrip rawFood ≠ "")
    (code : Nat) (upBody : String) :
    (∀ (errFields innerFields : List (String × Json)) (m : Json),
      json_loads upBody = .ok (.object errFields) →
      errFields.lookup "error" = some (.object innerFields) →
      innerFields.lookup "message" = some m →
      handle_analyze_text reqBody (.httpError code upBody) =
        (send_json 500 (errObj (pyStr m)), true)) ∧
    (∀ e : ParseErr, json_loads upBody = .error e →
      handle_analyze_text reqBody (.httpError code upBody) =
        (send_json 500 (errObj ("API error: " ++ toString code)), true)) ∧
    (∀ errFields : List (String × Json),
      json_loads upBody = .ok (.object errFields) →
      errFields.lookup "error" = none →
      handle_analyze_text reqBody (.httpError code upBody) =
        (send_json 500 (errObj ("API error: " ++ toString code)), true)) ∧
    (∀ (errFields innerFields : List (String × Json)),
      json_loads upBody = .ok (.object errFields) →
      errFields.lookup "error" = some (.object innerFields) →
      innerFields.lookup "message" = none →
      handle_analyze_text reqBody (.httpError code upBody) =
        (send_json 500 (errObj ("API error: " ++ toString code)), true)) ∧
    (∀ (errFields : List (String × Json)) (v : Json),
      json_loads upBody = .ok (.object errFields) →
      errFields.lookup "error" = some v → (∀ fs, v ≠ .object fs) →
      handle_analyze_text reqBody (.httpError code upBody) =
        (send_json 500 (errObj (attrErrMsg v "get")), true)) ∧
    (∀ v : Json, json_loads upBody = .ok v → (∀ fs, v ≠ .object fs) →
      handle_analyze_text reqBody (.httpError code upBody) =
        (send_json 500 (errObj (attrErrMsg v "get")), true)) := by
  have hcall := handle_analyze_text_call reqBody reqFields rawFood hreq hfood hnonempty
  refine ⟨?_, ?_, ?_, ?_, ?_, ?_⟩
  · intro errFields innerFields m henv hlook hmsg
    rw [hcall]
    simp only [call_anthropic, send_to_anthropic, henv, pyDictGet, hlook, hmsg,
      Option.getD_some, PyErr.message]
  · intro e henv
    rw [hcall]
    simp only [call_anthropic, send_to_anthropic, henv, PyErr.message]
  · intro errFields henv hlook
    rw [hcall]
    simp only [call_anthropic, send_to_anthropic, henv, pyDictGet, hlook,
      Option.getD_none, PyErr.message, List.lookup, pyStr]
  · intro errFields innerFields henv hlook hmsg
    rw [hcall]
    simp only [call_anthropic, send_to_anthropic, henv, pyDictGet, hlook, hmsg,
      Option.getD_some, Option.getD_none, PyErr.message, pyStr]
  · intro errFields v henv hlook hnotobj
    rw [hcall]
    simp only [call_anthropic, send_to_anthropic, henv, pyDictGet, hlook,
      Option.getD_some]
    cases v with
    | object fs => exact absurd rfl (hnotobj fs)
    | null => rfl
    | boolean b => rfl
    | number n => rfl
    | string t => rfl
    | array xs => rfl
  · intro v henv hnotobj
    rw [hcall]
    simp only [call_anthropic, send_to_anthropic, henv]
    cases v with
    | object fs => exact absurd rfl (hnotobj fs)
    | null => rfl
    | boolean b => rfl
    | number n => rfl
    | string t => rfl
    | array xs => rfl

/-- Witness for the amended C8: the example given in the spec — upstream 429 with
`\x7b"error": \x7b"message": "rate limited"\x7d\x7d` yields 500 with
`error = "rate limited"` — plus the generic branch on an unparseable body. -/
theorem c8_amended_upstream_error_mapping_witness :
    handle_analyze_text "\x7b\"food\":\"x\"\x7d"
        (.httpError 429 "\x7b\"error\":\x7b\"message\":\"rate limited\"\x7d\x7d") =
      (send_json 500 (errObj "rate limited"), true) ∧
    handle_analyze_text "\x7b\"food\":\"x\"\x7d" (.httpError 503 "garbage") =
      (send_json 500 (errObj "API error: 503"), true) :=
  ⟨(c8_amended_upstream_error_mapping "\x7b\"food\":\"x\"\x7d" [("food", .string "x")] "x"
      rfl rfl (by decide) 429 "\x7b\"error\":\x7b\"message\":\"rate limited\"\x7d\x7d").1
      [("error", .object [("message", .string "rate limited")])]
      [("message", .string "rate limited")] (.string "rate limited") rfl rfl rfl,
   (c8_amended_upstream_error_mapping "\x7b\"food\":\"x\"\x7d" [("food", .string "x")] "x"
      rfl rfl (by decide) 503 "garbage").2.1 .expectingValue rfl⟩

/-- Claim C9: when the first content block of the upstream 2xx envelope has a
text that is not valid JSON, or the content array of the envelope is empty, the route
answers 500 with a body that is a JSON object holding a single non-empty
error string, and does not crash. -/
theorem c9_upstream_decode_failure_500 (reqBody : String)
    (reqFields : List (String × Json)) (rawFood : String)
    (hreq : json_loads reqBody = .ok (.object reqFields))
    (hfood : (reqFields.lookup "food").getD (.string "") = .string rawFood)
    (hnonempty : pyStrip rawFood ≠ "")
    (upBody : String) (envFields : List (String × Json))
    (henv : json_loads upBody = .ok (.object envFields))
    (hcase :
      (∃ (blockFields : List (String × Json)) (restBlocks : List Json)
         (s : String) (e : ParseErr),
        envFields.lookup "content" = some (.array (.object blockFields :: restBlocks)) ∧
        (blockFields.lookup "text").getD (.string "") = .string s ∧
        json_loads s = .error e) ∨
      envFields.lookup "content" = some (.array [])) :
    (handle_analyze_text reqBody (.success upBody)).1.status = 500 ∧
    isSingleErrorObj (handle_analyze_text reqBody (.success upBody)).1.body = true ∧
    (handle_analyze_text reqBody (.success upBody)).2 = true := by
  rw [handle_analyze_text_call reqBody reqFields rawFood hreq hfood hnonempty]
  rcases hcase with ⟨bf, rb, s, e, hc, ht, hs⟩ | hc
  · simp only [call_anthropic, send_to_anthropic, henv, pyDictGet, hc,
      Option.getD_some, pySubscriptZero, ht, hs]
    refine ⟨?_, ?_, ?_⟩
    · trivial
    · cases e <;> rfl
    · trivial
  · simp only [call_anthropic, send_to_anthropic, henv, pyDictGet, hc,
      Option.getD_some, pySubscriptZero]
    refine ⟨?_, ?_, ?_⟩ <;> trivial

/-- Witness for C9: a block whose text is `"nope"`, and an empty content array. -/
theorem c9_upstream_decode_failure_500_witness :
    ((handle_analyze_text "\x7b\"food\":\"x\"\x7d"
        (.success "\x7b\"content\":[\x7b\"text\":\"nope\"\x7d]\x7d")).1.status = 500 ∧
     isSingleErrorObj (handle_analyze_text "\x7b\"food\":\"x\"\x7d"
        (.success "\x7b\"content\":[\x7b\"text\":\"nope\"\x7d]\x7d")).1.body = true ∧
     (handle_analyze_text "\x7b\"food\":\"x\"\x7d"
        (.success "\x7b\"content\":[\x7b\"text\":\"nope\"\x7d]\x7d")).2 = true) ∧
    ((handle_analyze_text "\x7b\"food\":\"x\"\x7d"
        (.success "\x7b\"content\":[]\x7d")).1.status = 500 ∧
     isSingleErrorObj (handle_analyze_text "\x7b\"food\":\"x\"\x7d"
        (.success "\x7b\"content\":[]\x7d")).1.body = true ∧
     (handle_analyze_text "\x7b\"food\":\"x\"\x7d"
        (.success "\x7b\"content\":[]\x7d")).2 = true) :=
  ⟨c9_upstream_decode_failure_500 "\x7b\"food\":\"x\"\x7d" [("food", .string "x")] "x"
     rfl rfl (by decide) "\x7b\"content\":[\x7b\"text\":\"nope\"\x7d]\x7d"
     [("content", .array [.object [("text", .string "nope")]])] rfl
     (Or.inl ⟨[("text", .string "nope")], [], "nope", .expectingValue, rfl, rfl, rfl⟩),
   c9_upstream_decode_failure_500 "\x7b\"food\":\"x\"\x7d" [("food", .string "x")] "x"
     rfl rfl (by decide) "\x7b\"content\":[]\x7d"
     [("content", .array [])] rfl (Or.inr rfl)⟩

end Server
